import Mathlib

/-!
Verification of the PVsyst component-data parser (`pvsyst_parser.py`).

The development shallowly embeds the parsing core of the program:
`parse_inverter_data`, `parse_solar_panel_data`, the nested frequency
normalizer `parse_frequency`, and the aggregation loops of `main`.

Modelling conventions:
* Python strings are Lean `String`s; `str.strip()` is `pyStrip`,
  `str.lower()` is `pyLower`, `raw.split(';')` is `splitFields`.
* Python numbers (`float` results and `int` results) are modelled as
  exact rationals `ℚ`; `round(x, n)` is modelled as decimal
  round-half-to-even (`roundTo`), matching Python's `round`.
* The builtin `float(s)` conversion is modelled by `pyFloat?`, which
  accepts optionally signed decimal literals with optional fraction and
  exponent and rejects everything else; on rejection the ValueError
  message produced by CPython is modelled by `floatErrMsg`.
* A Python dict is modelled as an association list built in the source's
  key-insertion order; the whole-record `try/except` that returns `None`
  is modelled by `Except`/`Option`: any failing `float` coercion aborts
  the record, the first failing field (in dict evaluation order)
  determining the reported message.
-/

/-- Characters stripped by `str.strip()` (whitespace). -/
def isSpaceChar (c : Char) : Bool := c.isWhitespace

/-- Strip leading and trailing whitespace from a character list. -/
def stripList (l : List Char) : List Char :=
  ((l.dropWhile isSpaceChar).reverse.dropWhile isSpaceChar).reverse

/-- Model of Python `str.strip()`. -/
def pyStrip (s : String) : String := (stripList s.toList).asString

/-- Model of Python `str.lower()` (ASCII letters). -/
def pyLower (s : String) : String := (s.toList.map Char.toLower).asString

/-- Model of `str.replace('hz', '')`: delete every (non-overlapping,
left-to-right) occurrence of `hz`. -/
def removeHz : List Char → List Char
  | 'h' :: 'z' :: rest => removeHz rest
  | c :: rest => c :: removeHz rest
  | [] => []

/-- String wrapper for `removeHz`. -/
def removeHzStr (s : String) : String := (removeHz s.toList).asString

/-- Model of the Python substring test `pat in s`. -/
def strContains (s pat : String) : Bool := decide (pat.toList <:+: s.toList)

/-- Numeric value of a list of decimal digit characters. -/
def digitsToNat (l : List Char) : ℕ := l.foldl (fun a c => a * 10 + (c.toNat - 48)) 0

/-- Exponent suffix of a float literal, after the `e`/`E` marker. -/
def parseExpTail (base : ℚ) : List Char → Option ℚ
  | '+' :: ds => if ds ≠ [] ∧ ds.all Char.isDigit then some (base * 10 ^ digitsToNat ds) else none
  | '-' :: ds => if ds ≠ [] ∧ ds.all Char.isDigit then some (base / 10 ^ digitsToNat ds) else none
  | ds => if ds ≠ [] ∧ ds.all Char.isDigit then some (base * 10 ^ digitsToNat ds) else none

/-- Optional exponent part of a float literal (empty, or `e`/`E` suffix). -/
def parseExp (base : ℚ) : List Char → Option ℚ
  | [] => some base
  | 'e' :: rest => parseExpTail base rest
  | 'E' :: rest => parseExpTail base rest
  | _ => none

/-- Unsigned part of a float literal: digits, optional `.` fraction,
optional exponent. -/
def parseMantissa (l : List Char) : Option ℚ :=
  let ip := l.takeWhile Char.isDigit
  let r1 := l.dropWhile Char.isDigit
  match r1 with
  | '.' :: r2 =>
    let fp := r2.takeWhile Char.isDigit
    let r3 := r2.dropWhile Char.isDigit
    if ip = [] ∧ fp = [] then none
    else parseExp ((digitsToNat ip : ℚ) + (digitsToNat fp : ℚ) / 10 ^ fp.length) r3
  | [] => if ip = [] then none else some (digitsToNat ip)
  | _ => if ip = [] then none else parseExp (digitsToNat ip) r1

/-- Model of Python's builtin `float(s)` on finite decimal literals:
surrounding whitespace is ignored, an optional sign precedes the
mantissa; `none` models a raised `ValueError`. -/
def pyFloat? (s : String) : Option ℚ :=
  match stripList s.toList with
  | '+' :: r => parseMantissa r
  | '-' :: r => (parseMantissa r).map (fun q => -q)
  | r => parseMantissa r

/-- Round-half-to-even to an integer, as Python's `round` does. -/
def rhe (q : ℚ) : ℤ :=
  if q - ⌊q⌋ < 1 / 2 then ⌊q⌋
  else if (1 : ℚ) / 2 < q - ⌊q⌋ then ⌊q⌋ + 1
  else if ⌊q⌋ % 2 = 0 then ⌊q⌋ else ⌊q⌋ + 1

/-- Model of Python `round(q, n)`: round to `n` decimal places,
halves to even. -/
def roundTo (n : ℕ) (q : ℚ) : ℚ := (rhe (q * 10 ^ n) : ℚ) / 10 ^ n

/-- Model of `raw_data.split(';')`. -/
def splitSemis : List Char → List (List Char)
  | [] => [[]]
  | c :: rest =>
    if c = ';' then [] :: splitSemis rest
    else match splitSemis rest with
      | [] => [[c]]
      | h :: t => (c :: h) :: t

/-- The token sequence of one raw line: `fields = raw_data.split(';')`. -/
def splitFields (raw : String) : List String := (splitSemis raw.toList).map List.asString

/-- A value stored in a specification record: Python `str`, or a Python
number (`float`/`int`, both modelled as `ℚ`). -/
inductive PyVal where
  | str : String → PyVal
  | num : ℚ → PyVal
deriving DecidableEq

/-- The CPython `ValueError` message of a failed `float(s)`. -/
def floatErrMsg (s : String) : String :=
  "could not convert string to float: '" ++ s ++ "'"

/-- A float-typed field: `float(fields[i]) if len(fields) > i and
fields[i] and fields[i].strip() else 0`. Absent or blank tokens default
to `0`; a present, non-blank, unparseable token raises (modelled as
`.error` with the `ValueError` message). -/
def floatFieldE (fields : List String) (i : ℕ) : Except String ℚ :=
  match fields[i]? with
  | none => .ok 0
  | some t =>
    if t = "" then .ok 0
    else if pyStrip t = "" then .ok 0
    else match pyFloat? t with
      | some q => .ok q
      | none => .error (floatErrMsg t)

/-- A string-typed field: `str(fields[i]).strip() if len(fields) > i
else ""`. -/
def strField (fields : List String) (i : ℕ) : String :=
  match fields[i]? with
  | none => ""
  | some t => pyStrip t

/-- An integer-typed field: `int(fields[i]) if len(fields) > i and
fields[i] and fields[i].strip().isdigit() else 0`. Never raises. -/
def intField (fields : List String) (i : ℕ) : ℕ :=
  match fields[i]? with
  | none => 0
  | some t =>
    if t ≠ "" ∧ pyStrip t ≠ "" ∧ (pyStrip t).toList.all Char.isDigit
    then digitsToNat (pyStrip t).toList else 0

/-- The nested helper `parse_frequency` of `parse_inverter_data`:
empty input yields `0`; after strip+lower, input containing `50/60`
yields `50`; otherwise every `hz` is removed, the rest stripped and
converted with `float`, defaulting to `0` on failure. -/
def parse_frequency (s : String) : ℚ :=
  if s = "" then 0
  else
    let f := pyLower (pyStrip s)
    if "50/60".toList <:+: f.toList then 50
    else
      match pyFloat? (pyStrip (removeHzStr f)) with
      | some q => q
      | none => 0

/-- Field 13 of an inverter line:
`parse_frequency(fields[13]) if len(fields) > 13 else 0`. -/
def freqField (fields : List String) : ℚ :=
  match fields[13]? with
  | none => 0
  | some t => parse_frequency t

/-- The `inverter_specs` dict, in the source's key order, given the
values of the thirteen fallible float fields. -/
def inverterRecord (fields : List String)
    (v7 v8 v9 v10 v11 v17 v18 v19 v20 v24 v29 v30 v39 : ℚ) :
    List (String × PyVal) :=
  [("Manufacturer", .str (strField fields 1)),
   ("Model", .str (strField fields 2)),
   ("File_Name", .str (strField fields 3)),
   ("Data_Source", .str (strField fields 4)),
   ("Nominal_AC_Power_kW", .num v7),
   ("Maximum_AC_Power_kW", .num v8),
   ("Nominal_AC_current_A", .num v9),
   ("Maximum_AC_current_A", .num v10),
   ("Nominal_AC_Voltage_V", .num v11),
   ("Phase", .str (strField fields 12)),
   ("Frequency_Hz", .num (freqField fields)),
   ("Power_threshold_W", .num v17),
   ("Nominal_MPP_Voltage_V", .num v18),
   ("Min_MPP_Voltage_V", .num v19),
   ("Max_DC_Voltage_V", .num v20),
   ("Max_DC_Current_A", .num v24),
   ("Total_String_Inputs", .num v29),
   ("Total_MPPT", .num v30),
   ("Night_Consumption_W", .num v39)]

/-- The `panel_specs` dict after the two derived keys are added, in the
source's key order, given the values of the twelve fallible float
fields. The area and efficiency derivations of lines 79-88 are inlined:
millimetre dimensions are divided by 1000, multiplied and rounded to 3
places; efficiency is computed only when the area is strictly
positive. -/
def panelRecord (fields : List String)
    (v7 v35 v15 v16 v17 v18 v19 v20 v22 v40 v41 v43 : ℚ) :
    List (String × PyVal) :=
  let area := roundTo 3 ((v40 / 1000) * (v41 / 1000))
  let eff := if 0 < area then roundTo 2 ((v7 / (area * 1000)) * 100) else 0
  [("Manufacturer", .str (strField fields 1)),
   ("Model", .str (strField fields 2)),
   ("File_Name", .str (strField fields 3)),
   ("Data_Source", .str (strField fields 4)),
   ("Nominal_Power_W", .num v7),
   ("Technology", .str (strField fields 11)),
   ("Cells_in_Series", .num (intField fields 12)),
   ("Cells_in_Parallel", .num (intField fields 13)),
   ("Maximum_Voltage_IEC", .num v35),
   ("NOCT_C", .num v15),
   ("Vmp_V", .num v16),
   ("Imp_A", .num v17),
   ("Voc_V", .num v18),
   ("Isc_A", .num v19),
   ("Current_Temp_Coeff", .num v20),
   ("Power_Temp_Coeff", .num v22),
   ("Module_Length", .num v40),
   ("Module_Width", .num v41),
   ("Module_Weight", .num v43),
   ("Panel_Area_m2", .num area),
   ("Efficiency_percent", .num eff)]

/-- The 19 declared inverter keys, in dict insertion order. -/
def inverterKeys : List String :=
  ["Manufacturer", "Model", "File_Name", "Data_Source",
   "Nominal_AC_Power_kW", "Maximum_AC_Power_kW", "Nominal_AC_current_A",
   "Maximum_AC_current_A", "Nominal_AC_Voltage_V", "Phase",
   "Frequency_Hz", "Power_threshold_W", "Nominal_MPP_Voltage_V",
   "Min_MPP_Voltage_V", "Max_DC_Voltage_V", "Max_DC_Current_A",
   "Total_String_Inputs", "Total_MPPT", "Night_Consumption_W"]

/-- The 21 declared panel keys (19 extracted plus 2 derived), in dict
insertion order. -/
def panelKeys : List String :=
  ["Manufacturer", "Model", "File_Name", "Data_Source",
   "Nominal_Power_W", "Technology", "Cells_in_Series",
   "Cells_in_Parallel", "Maximum_Voltage_IEC", "NOCT_C", "Vmp_V",
   "Imp_A", "Voc_V", "Isc_A", "Current_Temp_Coeff", "Power_Temp_Coeff",
   "Module_Length", "Module_Width", "Module_Weight", "Panel_Area_m2",
   "Efficiency_percent"]

/-- The thirteen fallible (float-typed) inverter field indices, in dict
evaluation order. -/
def inverterFloatIdxs : List ℕ := [7, 8, 9, 10, 11, 17, 18, 19, 20, 24, 29, 30, 39]

/-- The twelve fallible (float-typed) panel field indices, in dict
evaluation order. -/
def panelFloatIdxs : List ℕ := [7, 35, 15, 16, 17, 18, 19, 20, 22, 40, 41, 43]

/-- Body of `parse_inverter_data`: evaluate the dict literal. The float
coercions run in the source's order; the first failure aborts the whole
record carrying its `ValueError` message. -/
def inverterBuild (fields : List String) : Except String (List (String × PyVal)) := do
  let v7 ← floatFieldE fields 7
  let v8 ← floatFieldE fields 8
  let v9 ← floatFieldE fields 9
  let v10 ← floatFieldE fields 10
  let v11 ← floatFieldE fields 11
  let v17 ← floatFieldE fields 17
  let v18 ← floatFieldE fields 18
  let v19 ← floatFieldE fields 19
  let v20 ← floatFieldE fields 20
  let v24 ← floatFieldE fields 24
  let v29 ← floatFieldE fields 29
  let v30 ← floatFieldE fields 30
  let v39 ← floatFieldE fields 39
  return inverterRecord fields v7 v8 v9 v10 v11 v17 v18 v19 v20 v24 v29 v30 v39

/-- Body of `parse_solar_panel_data`: evaluate the dict literal, then
the two derived keys (inlined in `panelRecord`). -/
def panelBuild (fields : List String) : Except String (List (String × PyVal)) := do
  let v7 ← floatFieldE fields 7
  let v35 ← floatFieldE fields 35
  let v15 ← floatFieldE fields 15
  let v16 ← floatFieldE fields 16
  let v17 ← floatFieldE fields 17
  let v18 ← floatFieldE fields 18
  let v19 ← floatFieldE fields 19
  let v20 ← floatFieldE fields 20
  let v22 ← floatFieldE fields 22
  let v40 ← floatFieldE fields 40
  let v41 ← floatFieldE fields 41
  let v43 ← floatFieldE fields 43
  return panelRecord fields v7 v35 v15 v16 v17 v18 v19 v20 v22 v40 v41 v43

/-- `parse_inverter_data`: the record, or `None` when the `except`
clause fires. -/
def parse_inverter_data (raw : String) : Option (List (String × PyVal)) :=
  (inverterBuild (splitFields raw)).toOption

/-- `parse_solar_panel_data`: the record, or `None` when the `except`
clause fires. -/
def parse_solar_panel_data (raw : String) : Option (List (String × PyVal)) :=
  (panelBuild (splitFields raw)).toOption

/-- The `st.error` diagnostic emitted by `parse_inverter_data`'s
`except` clause, when it fires. -/
def inverterDiag (raw : String) : Option String :=
  match inverterBuild (splitFields raw) with
  | .error e => some ("Error parsing inverter data: " ++ e)
  | .ok _ => none

/-- The aggregation loop of `main`: for each text area, a non-empty
input is parsed and a successful (truthy) parse is appended. -/
def collectParsed (p : String → Option (List (String × PyVal)))
    (raws : List String) : List (List (String × PyVal)) :=
  raws.foldl
    (fun acc d =>
      if d = "" then acc
      else match p d with
        | some r => acc ++ [r]
        | none => acc)
    []

/-! ## Structural lemmas about the embedded parsers -/

theorem bind_ok {α β : Type} (x : Except String α) (f : α → Except String β) (b : β) :
    (x >>= f) = .ok b ↔ ∃ a, x = .ok a ∧ f a = .ok b := by
  cases x <;> simp [Bind.bind, Except.bind]

theorem toOption_eq_some {α : Type} (x : Except String α) (a : α) :
    x.toOption = some a ↔ x = .ok a := by
  cases x <;> simp [Except.toOption]

theorem toOption_eq_none {α : Type} (x : Except String α) :
    x.toOption = none ↔ ∃ e, x = .error e := by
  cases x <;> simp [Except.toOption]

theorem inverterBuild_ok_elim {fields : List String} {r : List (String × PyVal)}
    (h : inverterBuild fields = .ok r) :
    ∃ v7 v8 v9 v10 v11 v17 v18 v19 v20 v24 v29 v30 v39,
      floatFieldE fields 7 = .ok v7 ∧ floatFieldE fields 8 = .ok v8 ∧
      floatFieldE fields 9 = .ok v9 ∧ floatFieldE fields 10 = .ok v10 ∧
      floatFieldE fields 11 = .ok v11 ∧ floatFieldE fields 17 = .ok v17 ∧
      floatFieldE fields 18 = .ok v18 ∧ floatFieldE fields 19 = .ok v19 ∧
      floatFieldE fields 20 = .ok v20 ∧ floatFieldE fields 24 = .ok v24 ∧
      floatFieldE fields 29 = .ok v29 ∧ floatFieldE fields 30 = .ok v30 ∧
      floatFieldE fields 39 = .ok v39 ∧
      r = inverterRecord fields v7 v8 v9 v10 v11 v17 v18 v19 v20 v24 v29 v30 v39 := by
  simp only [inverterBuild, bind_ok, pure, Except.pure, Except.ok.injEq] at h
  obtain ⟨v7, h7, v8, h8, v9, h9, v10, h10, v11, h11, v17, h17, v18, h18, v19, h19,
    v20, h20, v24, h24, v29, h29, v30, h30, v39, h39, hr⟩ := h
  exact ⟨v7, v8, v9, v10, v11, v17, v18, v19, v20, v24, v29, v30, v39,
    h7, h8, h9, h10, h11, h17, h18, h19, h20, h24, h29, h30, h39, hr.symm⟩

theorem inverterBuild_ok_intro (fields : List String)
    (v7 v8 v9 v10 v11 v17 v18 v19 v20 v24 v29 v30 v39 : ℚ)
    (h7 : floatFieldE fields 7 = .ok v7) (h8 : floatFieldE fields 8 = .ok v8)
    (h9 : floatFieldE fields 9 = .ok v9) (h10 : floatFieldE fields 10 = .ok v10)
    (h11 : floatFieldE fields 11 = .ok v11) (h17 : floatFieldE fields 17 = .ok v17)
    (h18 : floatFieldE fields 18 = .ok v18) (h19 : floatFieldE fields 19 = .ok v19)
    (h20 : floatFieldE fields 20 = .ok v20) (h24 : floatFieldE fields 24 = .ok v24)
    (h29 : floatFieldE fields 29 = .ok v29) (h30 : floatFieldE fields 30 = .ok v30)
    (h39 : floatFieldE fields 39 = .ok v39) :
    inverterBuild fields =
      .ok (inverterRecord fields v7 v8 v9 v10 v11 v17 v18 v19 v20 v24 v29 v30 v39) := by
  simp [inverterBuild, h7, h8, h9, h10, h11, h17, h18, h19, h20, h24, h29, h30, h39,
    Bind.bind, Except.bind, pure, Except.pure]

theorem panelBuild_ok_elim {fields : List String} {r : List (String × PyVal)}
    (h : panelBuild fields = .ok r) :
    ∃ v7 v35 v15 v16 v17 v18 v19 v20 v22 v40 v41 v43,
      floatFieldE fields 7 = .ok v7 ∧ floatFieldE fields 35 = .ok v35 ∧
      floatFieldE fields 15 = .ok v15 ∧ floatFieldE fields 16 = .ok v16 ∧
      floatFieldE fields 17 = .ok v17 ∧ floatFieldE fields 18 = .ok v18 ∧
      floatFieldE fields 19 = .ok v19 ∧ floatFieldE fields 20 = .ok v20 ∧
      floatFieldE fields 22 = .ok v22 ∧ floatFieldE fields 40 = .ok v40 ∧
      floatFieldE fields 41 = .ok v41 ∧ floatFieldE fields 43 = .ok v43 ∧
      r = panelRecord fields v7 v35 v15 v16 v17 v18 v19 v20 v22 v40 v41 v43 := by
  simp only [panelBuild, bind_ok, pure, Except.pure, Except.ok.injEq] at h
  obtain ⟨v7, h7, v35, h35, v15, h15, v16, h16, v17, h17, v18, h18, v19, h19,
    v20, h20, v22, h22, v40, h40, v41, h41, v43, h43, hr⟩ := h
  exact ⟨v7, v35, v15, v16, v17, v18, v19, v20, v22, v40, v41, v43,
    h7, h35, h15, h16, h17, h18, h19, h20, h22, h40, h41, h43, hr.symm⟩

theorem panelBuild_ok_intro (fields : List String)
    (v7 v35 v15 v16 v17 v18 v19 v20 v22 v40 v41 v43 : ℚ)
    (h7 : floatFieldE fields 7 = .ok v7) (h35 : floatFieldE fields 35 = .ok v35)
    (h15 : floatFieldE fields 15 = .ok v15) (h16 : floatFieldE fields 16 = .ok v16)
    (h17 : floatFieldE fields 17 = .ok v17) (h18 : floatFieldE fields 18 = .ok v18)
    (h19 : floatFieldE fields 19 = .ok v19) (h20 : floatFieldE fields 20 = .ok v20)
    (h22 : floatFieldE fields 22 = .ok v22) (h40 : floatFieldE fields 40 = .ok v40)
    (h41 : floatFieldE fields 41 = .ok v41) (h43 : floatFieldE fields 43 = .ok v43) :
    panelBuild fields =
      .ok (panelRecord fields v7 v35 v15 v16 v17 v18 v19 v20 v22 v40 v41 v43) := by
  simp [panelBuild, h7, h35, h15, h16, h17, h18, h19, h20, h22, h40, h41, h43,
    Bind.bind, Except.bind, pure, Except.pure]

theorem floatFieldE_oob {fields : List String} {i : ℕ} (h : fields.length ≤ i) :
    floatFieldE fields i = .ok 0 := by
  unfold floatFieldE
  rw [List.getElem?_eq_none h]

theorem strField_oob {fields : List String} {i : ℕ} (h : fields.length ≤ i) :
    strField fields i = "" := by
  unfold strField
  rw [List.getElem?_eq_none h]

theorem intField_oob {fields : List String} {i : ℕ} (h : fields.length ≤ i) :
    intField fields i = 0 := by
  unfold intField
  rw [List.getElem?_eq_none h]

theorem freqField_oob {fields : List String} (h : fields.length ≤ 13) :
    freqField fields = 0 := by
  unfold freqField
  rw [List.getElem?_eq_none h]

theorem floatFieldE_malformed {fields : List String} {i : ℕ} {t : String}
    (ht : fields[i]? = some t) (h1 : t ≠ "") (h2 : pyStrip t ≠ "")
    (h3 : pyFloat? t = none) :
    floatFieldE fields i = .error (floatErrMsg t) := by
  unfold floatFieldE
  rw [ht]
  simp [h1, h2, h3]

/-! ## Substring, rounding and aggregation lemmas -/

theorem toList_pyStrip (s : String) : (pyStrip s).toList = stripList s.toList := rfl

theorem toList_pyLower (s : String) : (pyLower s).toList = s.toList.map Char.toLower := rfl

theorem infix_dropWhile {p : Char → Bool} {pat l : List Char} (hne : pat ≠ [])
    (hc : ∀ c ∈ pat, p c = false) (h : pat <:+: l) : pat <:+: l.dropWhile p := by
  induction l with
  | nil => rw [List.infix_nil] at h; exact absurd h hne
  | cons c cs ih =>
    rw [List.dropWhile_cons]
    by_cases hpc : p c = true
    · rw [if_pos hpc]
      apply ih
      obtain ⟨s, t, hst⟩ := h
      cases s with
      | nil =>
        simp only [List.nil_append] at hst
        cases pat with
        | nil => exact absurd rfl hne
        | cons a as =>
          rw [List.cons_append] at hst
          injection hst with h1 h2
          subst h1
          exact absurd hpc (by simp [hc a (by simp)])
      | cons b bs =>
        simp only [List.cons_append, List.append_assoc] at hst
        injection hst with h1 h2
        exact ⟨bs, t, by simpa [List.append_assoc] using h2⟩
    · rw [if_neg hpc]
      exact h

theorem infix_stripList {pat l : List Char} (hne : pat ≠ [])
    (hc : ∀ c ∈ pat, isSpaceChar c = false) (h : pat <:+: l) : pat <:+: stripList l := by
  unfold stripList
  have h1 : pat <:+: l.dropWhile isSpaceChar := infix_dropWhile hne hc h
  have h2 : pat.reverse <:+: (l.dropWhile isSpaceChar).reverse :=
    List.reverse_infix.mpr h1
  have h3 : pat.reverse <:+: (l.dropWhile isSpaceChar).reverse.dropWhile isSpaceChar :=
    infix_dropWhile (by simpa using hne)
      (fun c hcm => hc c (by simpa using hcm)) h2
  have h4 : pat.reverse <:+:
      (((l.dropWhile isSpaceChar).reverse.dropWhile isSpaceChar).reverse).reverse := by
    simpa using h3
  exact List.reverse_infix.mp h4

theorem parse_frequency_of_contains {s : String}
    (h : "50/60".toList <:+: s.toList) : parse_frequency s = 50 := by
  have hne : s ≠ "" := by
    intro hs
    subst hs
    rw [show ("" : String).toList = [] from rfl, List.infix_nil] at h
    exact absurd h (by decide)
  unfold parse_frequency
  rw [if_neg hne]
  have hstrip : "50/60".toList <:+: stripList s.toList :=
    infix_stripList (by decide) (by decide) h
  have hlow : "50/60".toList <:+: (stripList s.toList).map Char.toLower := by
    have hmap := hstrip.map Char.toLower
    rwa [show ("50/60".toList.map Char.toLower) = "50/60".toList from by decide] at hmap
  simp only [toList_pyLower, toList_pyStrip]
  rw [if_pos hlow]

theorem rhe_nonpos {q : ℚ} (h : q < 0) : rhe q ≤ 0 := by
  have hf : ⌊q⌋ < 0 := Int.floor_lt.mpr (by exact_mod_cast h)
  unfold rhe
  split_ifs <;> omega

theorem roundTo_nonpos {n : ℕ} {q : ℚ} (h : q < 0) : roundTo n q ≤ 0 := by
  unfold roundTo
  have h1 : q * 10 ^ n < 0 := mul_neg_of_neg_of_pos h (by positivity)
  have h2 : ((rhe (q * 10 ^ n) : ℤ) : ℚ) ≤ 0 := by exact_mod_cast rhe_nonpos h1
  exact div_nonpos_iff.mpr (Or.inr ⟨h2, by positivity⟩)

theorem collectParsed_eq_filterMap (p : String → Option (List (String × PyVal)))
    (raws : List String) :
    collectParsed p raws = raws.filterMap (fun d => if d = "" then none else p d) := by
  have key : ∀ (rs : List String) (acc : List (List (String × PyVal))),
      rs.foldl
        (fun acc d =>
          if d = "" then acc
          else match p d with
            | some r => acc ++ [r]
            | none => acc)
        acc = acc ++ rs.filterMap (fun d => if d = "" then none else p d) := by
    intro rs
    induction rs with
    | nil => intro acc; simp
    | cons d ds ih =>
      intro acc
      rw [List.foldl_cons, List.filterMap_cons]
      by_cases hd : d = ""
      · simp only [if_pos hd]
        exact ih acc
      · simp only [if_neg hd]
        cases hp : p d with
        | none => exact ih acc
        | some r => rw [ih (acc ++ [r])]; simp
  unfold collectParsed
  simpa using key raws []

/-! ## Projections out of the assembled records -/

theorem inverterRecord_keys (fields : List String)
    (v7 v8 v9 v10 v11 v17 v18 v19 v20 v24 v29 v30 v39 : ℚ) :
    (inverterRecord fields v7 v8 v9 v10 v11 v17 v18 v19 v20 v24 v29 v30 v39).map
      Prod.fst = inverterKeys := rfl

theorem panelRecord_keys (fields : List String)
    (v7 v35 v15 v16 v17 v18 v19 v20 v22 v40 v41 v43 : ℚ) :
    (panelRecord fields v7 v35 v15 v16 v17 v18 v19 v20 v22 v40 v41 v43).map
      Prod.fst = panelKeys := rfl

theorem inverterRecord_lookup_freq (fields : List String)
    (v7 v8 v9 v10 v11 v17 v18 v19 v20 v24 v29 v30 v39 : ℚ) :
    (inverterRecord fields v7 v8 v9 v10 v11 v17 v18 v19 v20 v24 v29 v30 v39).lookup
      "Frequency_Hz" = some (.num (freqField fields)) := rfl

theorem panelRecord_lookup_power (fields : List String)
    (v7 v35 v15 v16 v17 v18 v19 v20 v22 v40 v41 v43 : ℚ) :
    (panelRecord fields v7 v35 v15 v16 v17 v18 v19 v20 v22 v40 v41 v43).lookup
      "Nominal_Power_W" = some (.num v7) := rfl

theorem panelRecord_lookup_cells_series (fields : List String)
    (v7 v35 v15 v16 v17 v18 v19 v20 v22 v40 v41 v43 : ℚ) :
    (panelRecord fields v7 v35 v15 v16 v17 v18 v19 v20 v22 v40 v41 v43).lookup
      "Cells_in_Series" = some (.num (intField fields 12)) := rfl

theorem panelRecord_lookup_cells_parallel (fields : List String)
    (v7 v35 v15 v16 v17 v18 v19 v20 v22 v40 v41 v43 : ℚ) :
    (panelRecord fields v7 v35 v15 v16 v17 v18 v19 v20 v22 v40 v41 v43).lookup
      "Cells_in_Parallel" = some (.num (intField fields 13)) := rfl

theorem panelRecord_lookup_length (fields : List String)
    (v7 v35 v15 v16 v17 v18 v19 v20 v22 v40 v41 v43 : ℚ) :
    (panelRecord fields v7 v35 v15 v16 v17 v18 v19 v20 v22 v40 v41 v43).lookup
      "Module_Length" = some (.num v40) := rfl

theorem panelRecord_lookup_width (fields : List String)
    (v7 v35 v15 v16 v17 v18 v19 v20 v22 v40 v41 v43 : ℚ) :
    (panelRecord fields v7 v35 v15 v16 v17 v18 v19 v20 v22 v40 v41 v43).lookup
      "Module_Width" = some (.num v41) := rfl

theorem panelRecord_lookup_area (fields : List String)
    (v7 v35 v15 v16 v17 v18 v19 v20 v22 v40 v41 v43 : ℚ) :
    (panelRecord fields v7 v35 v15 v16 v17 v18 v19 v20 v22 v40 v41 v43).lookup
      "Panel_Area_m2" = some (.num (roundTo 3 ((v40 / 1000) * (v41 / 1000)))) := rfl

theorem panelRecord_lookup_eff (fields : List String)
    (v7 v35 v15 v16 v17 v18 v19 v20 v22 v40 v41 v43 : ℚ) :
    (panelRecord fields v7 v35 v15 v16 v17 v18 v19 v20 v22 v40 v41 v43).lookup
      "Efficiency_percent" =
      some (.num (if 0 < roundTo 3 ((v40 / 1000) * (v41 / 1000))
        then roundTo 2 ((v7 / (roundTo 3 ((v40 / 1000) * (v41 / 1000)) * 1000)) * 100)
        else 0)) := rfl

/-! ## Claim theorems -/

/-- C1: for any field whose 0-based index is out of range for the
semicolon-split token sequence, the field resolves to its
type-appropriate default (`.ok 0` for float fields, `""` for string
fields, `0` for integer and frequency fields); and a line whose token
count is at most 7 (so every referenced numeric index is out of range,
as in the 5-token scenario) parses successfully into the full record
with every fallible numeric field `0`. -/
theorem claim1_out_of_range_defaults :
    (∀ (fields : List String) (i : ℕ), fields.length ≤ i →
      floatFieldE fields i = .ok 0 ∧ strField fields i = "" ∧ intField fields i = 0) ∧
    (∀ fields : List String, fields.length ≤ 13 → freqField fields = 0) ∧
    (∀ raw : String, (splitFields raw).length ≤ 7 →
      parse_inverter_data raw =
        some (inverterRecord (splitFields raw) 0 0 0 0 0 0 0 0 0 0 0 0 0) ∧
      parse_solar_panel_data raw =
        some (panelRecord (splitFields raw) 0 0 0 0 0 0 0 0 0 0 0 0)) := by
  refine ⟨fun fields i h => ⟨floatFieldE_oob h, strField_oob h, intField_oob h⟩,
    fun fields h => freqField_oob h, fun raw h => ⟨?_, ?_⟩⟩
  · unfold parse_inverter_data
    rw [inverterBuild_ok_intro (splitFields raw) 0 0 0 0 0 0 0 0 0 0 0 0 0
      (floatFieldE_oob (by omega)) (floatFieldE_oob (by omega))
      (floatFieldE_oob (by omega)) (floatFieldE_oob (by omega))
      (floatFieldE_oob (by omega)) (floatFieldE_oob (by omega))
      (floatFieldE_oob (by omega)) (floatFieldE_oob (by omega))
      (floatFieldE_oob (by omega)) (floatFieldE_oob (by omega))
      (floatFieldE_oob (by omega)) (floatFieldE_oob (by omega))
      (floatFieldE_oob (by omega))]
    rfl
  · unfold parse_solar_panel_data
    rw [panelBuild_ok_intro (splitFields raw) 0 0 0 0 0 0 0 0 0 0 0 0
      (floatFieldE_oob (by omega)) (floatFieldE_oob (by omega))
      (floatFieldE_oob (by omega)) (floatFieldE_oob (by omega))
      (floatFieldE_oob (by omega)) (floatFieldE_oob (by omega))
      (floatFieldE_oob (by omega)) (floatFieldE_oob (by omega))
      (floatFieldE_oob (by omega)) (floatFieldE_oob (by omega))
      (floatFieldE_oob (by omega)) (floatFieldE_oob (by omega))]
    rfl

/-- Witness for C1: the 5-token inverter line of the end-to-end
scenario parses into a full record whose four string fields carry
tokens 1-4 and in which every numeric field is `0`, `Phase` is `""`
and `Frequency_Hz` is `0`. -/
theorem claim1_witness :
    (splitFields "a;b;c;d;e").length ≤ 7 ∧
    parse_inverter_data "a;b;c;d;e" = some
      [("Manufacturer", PyVal.str "b"), ("Model", PyVal.str "c"),
       ("File_Name", PyVal.str "d"), ("Data_Source", PyVal.str "e"),
       ("Nominal_AC_Power_kW", PyVal.num 0), ("Maximum_AC_Power_kW", PyVal.num 0),
       ("Nominal_AC_current_A", PyVal.num 0), ("Maximum_AC_current_A", PyVal.num 0),
       ("Nominal_AC_Voltage_V", PyVal.num 0), ("Phase", PyVal.str ""),
       ("Frequency_Hz", PyVal.num 0), ("Power_threshold_W", PyVal.num 0),
       ("Nominal_MPP_Voltage_V", PyVal.num 0), ("Min_MPP_Voltage_V", PyVal.num 0),
       ("Max_DC_Voltage_V", PyVal.num 0), ("Max_DC_Current_A", PyVal.num 0),
       ("Total_String_Inputs", PyVal.num 0), ("Total_MPPT", PyVal.num 0),
       ("Night_Consumption_W", PyVal.num 0)] := by
  constructor
  · decide
  · rw [(claim1_out_of_range_defaults.2.2 "a;b;c;d;e" (by decide)).1]
    rfl

/-- C2: any frequency token containing the substring `50/60` (with any
surrounding text; the pattern is caseless, so case-insensitivity is
automatic) normalizes to `50`, both at `parse_frequency` level and in
the `Frequency_Hz` field of a successfully parsed inverter record; and
`parse_frequency` is idempotent on the already-normalized `"50"`. -/
theorem claim2_frequency_50_60 :
    (∀ s : String, "50/60".toList <:+: s.toList → parse_frequency s = 50) ∧
    (∀ (raw : String) (r : List (String × PyVal)) (t : String),
      parse_inverter_data raw = some r → (splitFields raw)[13]? = some t →
      "50/60".toList <:+: t.toList → r.lookup "Frequency_Hz" = some (.num 50)) ∧
    parse_frequency "50" = 50 := by
  refine ⟨fun s h => parse_frequency_of_contains h, ?_, ?_⟩
  · intro raw r t hp ht hinf
    rw [parse_inverter_data, toOption_eq_some] at hp
    obtain ⟨v7, v8, v9, v10, v11, v17, v18, v19, v20, v24, v29, v30, v39,
      _, _, _, _, _, _, _, _, _, _, _, _, _, hr⟩ := inverterBuild_ok_elim hp
    subst hr
    rw [inverterRecord_lookup_freq]
    unfold freqField
    rw [ht]
    show some (PyVal.num (parse_frequency t)) = some (PyVal.num 50)
    rw [parse_frequency_of_contains hinf]
  · rfl

/-- Witness for C2: end-to-end scenario 1's token `50/60Hz` contains
the marker and normalizes to `50`. -/
theorem claim2_witness :
    parse_frequency "50/60Hz" = 50 ∧ ("50/60".toList <:+: "50/60Hz".toList) :=
  ⟨claim2_frequency_50_60.1 "50/60Hz" (by decide), by decide⟩

theorem parse_frequency_no5060 {s : String} (h1 : s ≠ "")
    (h2 : ¬ ("50/60".toList <:+: (pyLower (pyStrip s)).toList)) :
    parse_frequency s = (pyFloat? (pyStrip (removeHzStr (pyLower (pyStrip s))))).getD 0 := by
  unfold parse_frequency
  rw [if_neg h1]
  show (if "50/60".toList <:+: (pyLower (pyStrip s)).toList then (50 : ℚ)
    else match pyFloat? (pyStrip (removeHzStr (pyLower (pyStrip s)))) with
      | some q => q
      | none => 0) = _
  rw [if_neg h2]
  cases hq : pyFloat? (pyStrip (removeHzStr (pyLower (pyStrip s)))) <;> simp [hq]

/-- C3 counterexample: the claim says a token whose only `hz` is not
trailing, such as `1hz2`, fails the float parse and normalizes to `0`.
In the code `replace('hz', '')` deletes every occurrence of `hz`, so
`1hz2` becomes `12` and normalizes to `12`, not `0`. -/
theorem claim3_counterexample :
    parse_frequency "1hz2" = 12 ∧ parse_frequency "1hz2" ≠ 0 := by
  have h : parse_frequency "1hz2" = 12 := by rfl
  exact ⟨h, by rw [h]; norm_num⟩

/-- C3, amended: on a non-empty token without the `50/60` marker, the
normalizer removes every occurrence of `hz` from the stripped,
lowercased token (not only a trailing unit marker), strips again and
parses the remainder as a float, defaulting to `0` on parse failure;
an absent field (index out of range) also normalizes to `0`. In
particular `1hz2` becomes `12` and normalizes to `12`. -/
theorem claim3_hz_removal :
    (∀ s : String, s = "" → parse_frequency s = 0) ∧
    (∀ s : String, s ≠ "" → ¬ ("50/60".toList <:+: (pyLower (pyStrip s)).toList) →
      parse_frequency s =
        (pyFloat? (pyStrip (removeHzStr (pyLower (pyStrip s))))).getD 0) ∧
    (∀ fields : List String, fields.length ≤ 13 → freqField fields = 0) :=
  ⟨fun s h => by rw [parse_frequency, if_pos h],
   fun s h1 h2 => parse_frequency_no5060 h1 h2,
   fun fields h => freqField_oob h⟩

/-- Witness for C3's amended statement, at the token `1hz2`: both
occurrences of `h`/`z` adjacency are removed, the cleaned string is
`12`, and the normalizer returns its float value. -/
theorem claim3_witness :
    parse_frequency "1hz2" =
      (pyFloat? (pyStrip (removeHzStr (pyLower (pyStrip "1hz2"))))).getD 0 ∧
    pyStrip (removeHzStr (pyLower (pyStrip "1hz2"))) = "12" :=
  ⟨claim3_hz_removal.2.1 "1hz2" (by decide) (by decide), by rfl⟩

set_option maxRecDepth 40000 in
/-- C4 counterexample: for the raw line `;;;;;;;N/A` (float field 7
holds `N/A`), the record parse fails and a diagnostic is reported, but
that diagnostic contains the offending text only - it does not name
the field: no inverter field name occurs in the emitted message,
against the claim that the diagnostic names the field. -/
theorem claim4_counterexample :
    inverterDiag ";;;;;;;N/A" =
      some "Error parsing inverter data: could not convert string to float: 'N/A'" ∧
    (inverterKeys.all (fun k =>
      !(strContains
        "Error parsing inverter data: could not convert string to float: 'N/A'" k)))
      = true ∧
    parse_inverter_data ";;;;;;;N/A" = none :=
  ⟨by rfl, by decide, by rfl⟩

/-- C4, amended: a present, non-blank, non-float token in any
float-typed inverter field makes the whole record parse fail with
`None` (no exception escapes); the emitted diagnostic carries the
`ValueError` cause naming the offending text (but not the field name);
the failed record is not added to the aggregate while records parsed
before and after it remain, in order. -/
theorem claim4_malformed_float :
    (∀ (raw : String) (i : ℕ) (t : String), i ∈ inverterFloatIdxs →
      (splitFields raw)[i]? = some t → t ≠ "" → pyStrip t ≠ "" → pyFloat? t = none →
      parse_inverter_data raw = none) ∧
    (∀ (raw : String) (t : String), (splitFields raw)[7]? = some t → t ≠ "" →
      pyStrip t ≠ "" → pyFloat? t = none →
      inverterDiag raw = some ("Error parsing inverter data: " ++ floatErrMsg t)) ∧
    (∀ (A B C : String) (a c : List (String × PyVal)), A ≠ "" → B ≠ "" → C ≠ "" →
      parse_inverter_data A = some a → parse_inverter_data B = none →
      parse_inverter_data C = some c →
      collectParsed parse_inverter_data [A, B, C] = [a, c]) := by
  refine ⟨?_, ?_, ?_⟩
  · intro raw i t hi ht h1 h2 h3
    have herr := floatFieldE_malformed ht h1 h2 h3
    cases hb : inverterBuild (splitFields raw) with
    | error e => rw [parse_inverter_data, hb]; rfl
    | ok r =>
      exfalso
      obtain ⟨v7, v8, v9, v10, v11, v17, v18, v19, v20, v24, v29, v30, v39,
        h7, h8, h9, h10, h11, h17, h18, h19, h20, h24, h29, h30, h39, _⟩ :=
        inverterBuild_ok_elim hb
      simp only [inverterFloatIdxs, List.mem_cons, List.not_mem_nil, or_false] at hi
      rcases hi with rfl | rfl | rfl | rfl | rfl | rfl | rfl | rfl | rfl | rfl | rfl | rfl | rfl <;>
        simp_all
  · intro raw t ht h1 h2 h3
    have herr := floatFieldE_malformed ht h1 h2 h3
    have hb : inverterBuild (splitFields raw) = .error (floatErrMsg t) := by
      simp [inverterBuild, herr, Bind.bind, Except.bind]
    rw [inverterDiag, hb]
  · intro A B C a c hA hB hC hpA hpB hpC
    rw [collectParsed_eq_filterMap]
    simp [List.filterMap_cons, hA, hB, hC, hpA, hpB, hpC]

/-- Witness for C4's amended statement: in a batch of three raw lines
whose middle line has `N/A` in float field 7, the aggregate keeps
exactly the first and third records, in order. -/
theorem claim4_witness :
    collectParsed parse_inverter_data ["x", ";;;;;;;N/A", "y"] =
      [inverterRecord (splitFields "x") 0 0 0 0 0 0 0 0 0 0 0 0 0,
       inverterRecord (splitFields "y") 0 0 0 0 0 0 0 0 0 0 0 0 0] :=
  claim4_malformed_float.2.2 "x" ";;;;;;;N/A" "y"
    (inverterRecord (splitFields "x") 0 0 0 0 0 0 0 0 0 0 0 0 0)
    (inverterRecord (splitFields "y") 0 0 0 0 0 0 0 0 0 0 0 0 0)
    (by decide) (by decide) (by decide) (by rfl) (by rfl) (by rfl)

theorem panelBuild_isSome_iff (fields : List String) :
    (panelBuild fields).toOption.isSome ↔
      ∀ i ∈ panelFloatIdxs, ∃ v, floatFieldE fields i = .ok v := by
  constructor
  · intro h
    obtain ⟨r, hr⟩ := Option.isSome_iff_exists.mp h
    rw [toOption_eq_some] at hr
    obtain ⟨v7, v35, v15, v16, v17, v18, v19, v20, v22, v40, v41, v43,
      h7, h35, h15, h16, h17, h18, h19, h20, h22, h40, h41, h43, _⟩ :=
      panelBuild_ok_elim hr
    intro i hi
    simp only [panelFloatIdxs, List.mem_cons, List.not_mem_nil, or_false] at hi
    rcases hi with rfl | rfl | rfl | rfl | rfl | rfl | rfl | rfl | rfl | rfl | rfl | rfl
    exacts [⟨v7, h7⟩, ⟨v35, h35⟩, ⟨v15, h15⟩, ⟨v16, h16⟩, ⟨v17, h17⟩, ⟨v18, h18⟩,
      ⟨v19, h19⟩, ⟨v20, h20⟩, ⟨v22, h22⟩, ⟨v40, h40⟩, ⟨v41, h41⟩, ⟨v43, h43⟩]
  · intro h
    obtain ⟨v7, h7⟩ := h 7 (by simp [panelFloatIdxs])
    obtain ⟨v35, h35⟩ := h 35 (by simp [panelFloatIdxs])
    obtain ⟨v15, h15⟩ := h 15 (by simp [panelFloatIdxs])
    obtain ⟨v16, h16⟩ := h 16 (by simp [panelFloatIdxs])
    obtain ⟨v17, h17⟩ := h 17 (by simp [panelFloatIdxs])
    obtain ⟨v18, h18⟩ := h 18 (by simp [panelFloatIdxs])
    obtain ⟨v19, h19⟩ := h 19 (by simp [panelFloatIdxs])
    obtain ⟨v20, h20⟩ := h 20 (by simp [panelFloatIdxs])
    obtain ⟨v22, h22⟩ := h 22 (by simp [panelFloatIdxs])
    obtain ⟨v40, h40⟩ := h 40 (by simp [panelFloatIdxs])
    obtain ⟨v41, h41⟩ := h 41 (by simp [panelFloatIdxs])
    obtain ⟨v43, h43⟩ := h 43 (by simp [panelFloatIdxs])
    rw [panelBuild_ok_intro fields v7 v35 v15 v16 v17 v18 v19 v20 v22 v40 v41 v43
      h7 h35 h15 h16 h17 h18 h19 h20 h22 h40 h41 h43]
    rfl

theorem panelBuild_isSome_set (fields : List String) (i : ℕ) (t : String)
    (hi : i = 12 ∨ i = 13) :
    ((panelBuild (fields.set i t)).toOption.isSome ↔
      (panelBuild fields).toOption.isSome) := by
  have hff : ∀ j ∈ panelFloatIdxs, floatFieldE (fields.set i t) j = floatFieldE fields j := by
    intro j hj
    have hij : i ≠ j := by
      simp only [panelFloatIdxs, List.mem_cons, List.not_mem_nil, or_false] at hj
      rcases hi with rfl | rfl <;> omega
    unfold floatFieldE
    rw [List.getElem?_set_ne hij]
  rw [panelBuild_isSome_iff, panelBuild_isSome_iff]
  constructor <;> intro h j hj
  · rw [← hff j hj]; exact h j hj
  · rw [hff j hj]; exact h j hj

/-- C5: the integer-typed panel fields `Cells_in_Series` (index 12) and
`Cells_in_Parallel` (index 13) carry the integer value of the token
exactly when the trimmed token is a non-empty string of digits; any
other present content (negative numbers, decimals, arbitrary text)
yields `0`; and these two fields can never make the record parse fail
(replacing token 12 or 13 by anything leaves parse success
unchanged). -/
theorem claim5_integer_cells :
    (∀ (raw : String) (r : List (String × PyVal)), parse_solar_panel_data raw = some r →
      r.lookup "Cells_in_Series" = some (.num (intField (splitFields raw) 12)) ∧
      r.lookup "Cells_in_Parallel" = some (.num (intField (splitFields raw) 13))) ∧
    (∀ (fields : List String) (i : ℕ) (t : String), fields[i]? = some t →
      ¬ (pyStrip t ≠ "" ∧ (pyStrip t).toList.all Char.isDigit = true) →
      intField fields i = 0) ∧
    (∀ (fields : List String) (i : ℕ) (t : String), fields[i]? = some t →
      pyStrip t ≠ "" → (pyStrip t).toList.all Char.isDigit = true →
      intField fields i = digitsToNat (pyStrip t).toList) ∧
    (∀ (fields : List String) (i : ℕ) (t : String), i = 12 ∨ i = 13 →
      ((panelBuild (fields.set i t)).toOption.isSome ↔
        (panelBuild fields).toOption.isSome)) := by
  refine ⟨?_, ?_, ?_, fun fields i t hi => panelBuild_isSome_set fields i t hi⟩
  · intro raw r hp
    rw [parse_solar_panel_data, toOption_eq_some] at hp
    obtain ⟨v7, v35, v15, v16, v17, v18, v19, v20, v22, v40, v41, v43,
      _, _, _, _, _, _, _, _, _, _, _, _, hr⟩ := panelBuild_ok_elim hp
    subst hr
    exact ⟨panelRecord_lookup_cells_series _ _ _ _ _ _ _ _ _ _ _ _ _,
      panelRecord_lookup_cells_parallel _ _ _ _ _ _ _ _ _ _ _ _ _⟩
  · intro fields i t ht h2
    unfold intField
    rw [ht]
    show (if t ≠ "" ∧ pyStrip t ≠ "" ∧ (pyStrip t).toList.all Char.isDigit
      then digitsToNat (pyStrip t).toList else 0) = 0
    rw [if_neg]
    rintro ⟨-, hs, ha⟩
    exact h2 ⟨hs, ha⟩
  · intro fields i t ht hs ha
    unfold intField
    rw [ht]
    show (if t ≠ "" ∧ pyStrip t ≠ "" ∧ (pyStrip t).toList.all Char.isDigit
      then digitsToNat (pyStrip t).toList else 0) = digitsToNat (pyStrip t).toList
    rw [if_pos]
    exact ⟨fun ht' => hs (by rw [ht']; rfl), hs, ha⟩

/-- Witness for C5: the line `a;;;;;;;;;;;;-5;72` parses; its
`Cells_in_Series` token `-5` is not all-digits and defaults to `0`
while `Cells_in_Parallel` token `72` parses to `72`. -/
theorem claim5_witness :
    parse_solar_panel_data "a;;;;;;;;;;;;-5;72" =
      some (panelRecord (splitFields "a;;;;;;;;;;;;-5;72") 0 0 0 0 0 0 0 0 0 0 0 0) ∧
    (panelRecord (splitFields "a;;;;;;;;;;;;-5;72") 0 0 0 0 0 0 0 0 0 0 0 0).lookup
      "Cells_in_Series" = some (.num (intField (splitFields "a;;;;;;;;;;;;-5;72") 12)) ∧
    (panelRecord (splitFields "a;;;;;;;;;;;;-5;72") 0 0 0 0 0 0 0 0 0 0 0 0).lookup
      "Cells_in_Parallel" = some (.num (intField (splitFields "a;;;;;;;;;;;;-5;72") 13)) ∧
    intField (splitFields "a;;;;;;;;;;;;-5;72") 12 = 0 ∧
    intField (splitFields "a;;;;;;;;;;;;-5;72") 13 = 72 := by
  refine ⟨by rfl, ?_, ?_, by decide, by decide⟩
  · exact (claim5_integer_cells.1 "a;;;;;;;;;;;;-5;72" _ (by rfl)).1
  · exact (claim5_integer_cells.1 "a;;;;;;;;;;;;-5;72" _ (by rfl)).2

/-- C6: in every successfully parsed panel record, `Panel_Area_m2` is
obtained from the raw millimetre dimensions by dividing each by 1000,
multiplying, and rounding the product to 3 decimal places. -/
theorem claim6_area_formula :
    ∀ (raw : String) (r : List (String × PyVal)) (L W : ℚ),
      parse_solar_panel_data raw = some r →
      r.lookup "Module_Length" = some (.num L) →
      r.lookup "Module_Width" = some (.num W) →
      r.lookup "Panel_Area_m2" = some (.num (roundTo 3 ((L / 1000) * (W / 1000)))) := by
  intro raw r L W hp hL hW
  rw [parse_solar_panel_data, toOption_eq_some] at hp
  obtain ⟨v7, v35, v15, v16, v17, v18, v19, v20, v22, v40, v41, v43,
    _, _, _, _, _, _, _, _, _, _, _, _, hr⟩ := panelBuild_ok_elim hp
  subst hr
  rw [panelRecord_lookup_length] at hL
  rw [panelRecord_lookup_width] at hW
  simp only [Option.some.injEq, PyVal.num.injEq] at hL hW
  subst hL
  subst hW
  exact panelRecord_lookup_area _ _ _ _ _ _ _ _ _ _ _ _ _

/-- Witness for C6, end-to-end scenario 2: a panel line with
`Module_Length = 1700`, `Module_Width = 1000` gets
`Panel_Area_m2 = round((1700/1000)*(1000/1000), 3) = 1.7`. -/
theorem claim6_witness :
    parse_solar_panel_data ";;;;;;;;;;;;;;;;;;;;;;;;;;;;;;;;;;;;;;;;1700;1000" =
      some (panelRecord
        (splitFields ";;;;;;;;;;;;;;;;;;;;;;;;;;;;;;;;;;;;;;;;1700;1000")
        0 0 0 0 0 0 0 0 0 1700 1000 0) ∧
    (panelRecord (splitFields ";;;;;;;;;;;;;;;;;;;;;;;;;;;;;;;;;;;;;;;;1700;1000")
        0 0 0 0 0 0 0 0 0 1700 1000 0).lookup "Panel_Area_m2" =
      some (.num (roundTo 3 (((1700 : ℚ) / 1000) * ((1000 : ℚ) / 1000)))) ∧
    roundTo 3 (((1700 : ℚ) / 1000) * ((1000 : ℚ) / 1000)) = 17 / 10 := by
  refine ⟨by rfl, ?_, by norm_num [roundTo, rhe]⟩
  exact claim6_area_formula ";;;;;;;;;;;;;;;;;;;;;;;;;;;;;;;;;;;;;;;;1700;1000" _
    1700 1000 (by rfl) (by rfl) (by rfl)

/-- C7 counterexample: a panel line with both dimensions `1000` and an
absent nominal-power token parses into a record with
`Panel_Area_m2 = 1` and `Efficiency_percent = 0`: the efficiency is `0`
while the area is not `0`, so "Efficiency_percent is 0 iff
Panel_Area_m2 == 0" fails. -/
theorem claim7_counterexample :
    parse_solar_panel_data ";;;;;;;;;;;;;;;;;;;;;;;;;;;;;;;;;;;;;;;;1000;1000" =
      some (panelRecord
        (splitFields ";;;;;;;;;;;;;;;;;;;;;;;;;;;;;;;;;;;;;;;;1000;1000")
        0 0 0 0 0 0 0 0 0 1000 1000 0) ∧
    (panelRecord (splitFields ";;;;;;;;;;;;;;;;;;;;;;;;;;;;;;;;;;;;;;;;1000;1000")
        0 0 0 0 0 0 0 0 0 1000 1000 0).lookup "Panel_Area_m2" = some (.num 1) ∧
    (panelRecord (splitFields ";;;;;;;;;;;;;;;;;;;;;;;;;;;;;;;;;;;;;;;;1000;1000")
        0 0 0 0 0 0 0 0 0 1000 1000 0).lookup "Efficiency_percent" = some (.num 0) ∧
    (1 : ℚ) ≠ 0 := by
  have harea : roundTo 3 (((1000 : ℚ) / 1000) * ((1000 : ℚ) / 1000)) = 1 := by
    norm_num [roundTo, rhe]
  refine ⟨by rfl, ?_, ?_, by norm_num⟩
  · rw [panelRecord_lookup_area, harea]
  · rw [panelRecord_lookup_eff, harea]
    norm_num [roundTo, rhe]

/-- C7, amended: in every successfully parsed panel record,
`Efficiency_percent` equals
`round((Nominal_Power_W / (Panel_Area_m2 * 1000)) * 100, 2)` when
`Panel_Area_m2 > 0`, and `0` otherwise. Hence `Panel_Area_m2 = 0`
forces `Efficiency_percent = 0`, but the converse fails: the
efficiency is also `0` when the area is negative, or when the area is
positive and the rounded quotient vanishes (e.g. zero power). -/
theorem claim7_efficiency :
    ∀ (raw : String) (r : List (String × PyVal)) (a p : ℚ),
      parse_solar_panel_data raw = some r →
      r.lookup "Panel_Area_m2" = some (.num a) →
      r.lookup "Nominal_Power_W" = some (.num p) →
      r.lookup "Efficiency_percent" =
        some (.num (if 0 < a then roundTo 2 ((p / (a * 1000)) * 100) else 0)) := by
  intro raw r a p hp ha hpow
  rw [parse_solar_panel_data, toOption_eq_some] at hp
  obtain ⟨v7, v35, v15, v16, v17, v18, v19, v20, v22, v40, v41, v43,
    _, _, _, _, _, _, _, _, _, _, _, _, hr⟩ := panelBuild_ok_elim hp
  subst hr
  rw [panelRecord_lookup_area] at ha
  rw [panelRecord_lookup_power] at hpow
  simp only [Option.some.injEq, PyVal.num.injEq] at ha hpow
  subst ha
  subst hpow
  exact panelRecord_lookup_eff _ _ _ _ _ _ _ _ _ _ _ _ _

/-- Witness for C7's amended statement: with area `1` (positive) and
power `0`, the efficiency is `round((0/1000)*100, 2) = 0` even though
the area is nonzero. -/
theorem claim7_witness :
    (panelRecord (splitFields ";;;;;;;;;;;;;;;;;;;;;;;;;;;;;;;;;;;;;;;;1000;1000")
        0 0 0 0 0 0 0 0 0 1000 1000 0).lookup "Efficiency_percent" =
      some (.num (if 0 < roundTo 3 (((1000 : ℚ) / 1000) * ((1000 : ℚ) / 1000))
        then roundTo 2
          ((0 / (roundTo 3 (((1000 : ℚ) / 1000) * ((1000 : ℚ) / 1000)) * 1000)) * 100)
        else 0)) ∧
    (if 0 < roundTo 3 (((1000 : ℚ) / 1000) * ((1000 : ℚ) / 1000))
      then roundTo 2
        ((0 / (roundTo 3 (((1000 : ℚ) / 1000) * ((1000 : ℚ) / 1000)) * 1000)) * 100)
      else (0 : ℚ)) = 0 := by
  refine ⟨?_, by norm_num [roundTo, rhe]⟩
  exact claim7_efficiency ";;;;;;;;;;;;;;;;;;;;;;;;;;;;;;;;;;;;;;;;1000;1000" _
    (roundTo 3 (((1000 : ℚ) / 1000) * ((1000 : ℚ) / 1000))) 0
    (by rfl) (by rfl) (by rfl)

/-- C8: the aggregate of a batch is exactly the sequence of successful
parses of the non-empty inputs, in submission order (failed parses are
skipped, no placeholder inserted); in particular for inputs A, B, C
with B failing, the aggregate is `[parse A, parse C]`, for either
record kind. -/
theorem claim8_order :
    (∀ (p : String → Option (List (String × PyVal))) (raws : List String),
      collectParsed p raws = raws.filterMap (fun d => if d = "" then none else p d)) ∧
    (∀ (A B C : String) (a c : List (String × PyVal)), A ≠ "" → B ≠ "" → C ≠ "" →
      parse_inverter_data A = some a → parse_inverter_data B = none →
      parse_inverter_data C = some c →
      collectParsed parse_inverter_data [A, B, C] = [a, c]) ∧
    (∀ (A B C : String) (a c : List (String × PyVal)), A ≠ "" → B ≠ "" → C ≠ "" →
      parse_solar_panel_data A = some a → parse_solar_panel_data B = none →
      parse_solar_panel_data C = some c →
      collectParsed parse_solar_panel_data [A, B, C] = [a, c]) := by
  refine ⟨collectParsed_eq_filterMap, ?_, ?_⟩ <;>
  · intro A B C a c hA hB hC hpA hpB hpC
    rw [collectParsed_eq_filterMap]
    simp [List.filterMap_cons, hA, hB, hC, hpA, hpB, hpC]

/-- Witness for C8: a three-line panel batch whose middle line fails
(float field 7 holds `N/A`) aggregates to exactly the first and third
records, in order. -/
theorem claim8_witness :
    collectParsed parse_solar_panel_data ["p", ";;;;;;;N/A", "q"] =
      [panelRecord (splitFields "p") 0 0 0 0 0 0 0 0 0 0 0 0,
       panelRecord (splitFields "q") 0 0 0 0 0 0 0 0 0 0 0 0] :=
  claim8_order.2.2 "p" ";;;;;;;N/A" "q"
    (panelRecord (splitFields "p") 0 0 0 0 0 0 0 0 0 0 0 0)
    (panelRecord (splitFields "q") 0 0 0 0 0 0 0 0 0 0 0 0)
    (by decide) (by decide) (by decide) (by rfl) (by rfl) (by rfl)

/-- C9: every parse either fails or returns a record carrying exactly
the declared keys of its kind, in order (19 inverter keys, 21 panel
keys including the two derived ones); consequently no partial record
ever enters an aggregate. -/
theorem claim9_full_records :
    (∀ (raw : String) (r : List (String × PyVal)), parse_inverter_data raw = some r →
      r.map Prod.fst = inverterKeys) ∧
    (∀ (raw : String) (r : List (String × PyVal)), parse_solar_panel_data raw = some r →
      r.map Prod.fst = panelKeys) ∧
    inverterKeys.length = 19 ∧ panelKeys.length = 21 ∧
    (∀ (raws : List String) (r : List (String × PyVal)),
      r ∈ collectParsed parse_inverter_data raws → r.map Prod.fst = inverterKeys) ∧
    (∀ (raws : List String) (r : List (String × PyVal)),
      r ∈ collectParsed parse_solar_panel_data raws → r.map Prod.fst = panelKeys) := by
  have hinv : ∀ (raw : String) (r : List (String × PyVal)),
      parse_inverter_data raw = some r → r.map Prod.fst = inverterKeys := by
    intro raw r hp
    rw [parse_inverter_data, toOption_eq_some] at hp
    obtain ⟨v7, v8, v9, v10, v11, v17, v18, v19, v20, v24, v29, v30, v39,
      _, _, _, _, _, _, _, _, _, _, _, _, _, hr⟩ := inverterBuild_ok_elim hp
    subst hr
    exact inverterRecord_keys _ _ _ _ _ _ _ _ _ _ _ _ _ _
  have hpan : ∀ (raw : String) (r : List (String × PyVal)),
      parse_solar_panel_data raw = some r → r.map Prod.fst = panelKeys := by
    intro raw r hp
    rw [parse_solar_panel_data, toOption_eq_some] at hp
    obtain ⟨v7, v35, v15, v16, v17, v18, v19, v20, v22, v40, v41, v43,
      _, _, _, _, _, _, _, _, _, _, _, _, hr⟩ := panelBuild_ok_elim hp
    subst hr
    exact panelRecord_keys _ _ _ _ _ _ _ _ _ _ _ _ _
  refine ⟨hinv, hpan, by decide, by decide, ?_, ?_⟩
  · intro raws r hm
    rw [collectParsed_eq_filterMap] at hm
    obtain ⟨d, hd, hpd⟩ := List.mem_filterMap.mp hm
    by_cases hde : d = ""
    · rw [if_pos hde] at hpd
      exact absurd hpd (by simp)
    · rw [if_neg hde] at hpd
      exact hinv d r hpd
  · intro raws r hm
    rw [collectParsed_eq_filterMap] at hm
    obtain ⟨d, hd, hpd⟩ := List.mem_filterMap.mp hm
    by_cases hde : d = ""
    · rw [if_pos hde] at hpd
      exact absurd hpd (by simp)
    · rw [if_neg hde] at hpd
      exact hpan d r hpd

/-- Witness for C9: a one-token inverter line parses to a record whose
key sequence is exactly the 19 declared inverter keys. -/
theorem claim9_witness :
    parse_inverter_data "z" =
      some (inverterRecord (splitFields "z") 0 0 0 0 0 0 0 0 0 0 0 0 0) ∧
    (inverterRecord (splitFields "z") 0 0 0 0 0 0 0 0 0 0 0 0 0).map Prod.fst =
      inverterKeys :=
  ⟨by rfl, claim9_full_records.1 "z" _ (by rfl)⟩

/-- C10 counterexample: the panel line with `Module_Length = -1` and
`Module_Width = 1` (exactly one dimension strictly negative, the other
strictly positive) parses successfully, but `Panel_Area_m2` is `0`,
not strictly negative: the product `-0.000001` m^2 rounds to `0` at 3
decimal places. -/
theorem claim10_counterexample :
    parse_solar_panel_data ";;;;;;;;;;;;;;;;;;;;;;;;;;;;;;;;;;;;;;;;-1;1" =
      some (panelRecord
        (splitFields ";;;;;;;;;;;;;;;;;;;;;;;;;;;;;;;;;;;;;;;;-1;1")
        0 0 0 0 0 0 0 0 0 (-1) 1 0) ∧
    (-1 : ℚ) < 0 ∧ (0 : ℚ) < 1 ∧
    (panelRecord (splitFields ";;;;;;;;;;;;;;;;;;;;;;;;;;;;;;;;;;;;;;;;-1;1")
        0 0 0 0 0 0 0 0 0 (-1) 1 0).lookup "Panel_Area_m2" = some (.num 0) := by
  refine ⟨by rfl, by norm_num, by norm_num, ?_⟩
  rw [panelRecord_lookup_area]
  norm_num [roundTo, rhe, Int.floor_eq_iff]

/-- C10, amended: when a panel record parses successfully with exactly
one of `Module_Length`, `Module_Width` strictly negative and the other
strictly positive, the record is still produced; `Panel_Area_m2` is the
3-place rounding of the (strictly negative) product, hence at most `0`
(it is `0`, not strictly negative, when the magnitude rounds away);
and `Efficiency_percent` is `0` because the guard tests `area > 0`
rather than `area != 0`. -/
theorem claim10_negative_dimension :
    ∀ (raw : String) (r : List (String × PyVal)) (L W : ℚ),
      parse_solar_panel_data raw = some r →
      r.lookup "Module_Length" = some (.num L) →
      r.lookup "Module_Width" = some (.num W) →
      ((L < 0 ∧ 0 < W) ∨ (0 < L ∧ W < 0)) →
      r.lookup "Panel_Area_m2" = some (.num (roundTo 3 ((L / 1000) * (W / 1000)))) ∧
      roundTo 3 ((L / 1000) * (W / 1000)) ≤ 0 ∧
      r.lookup "Efficiency_percent" = some (.num 0) := by
  intro raw r L W hp hL hW hsign
  rw [parse_solar_panel_data, toOption_eq_some] at hp
  obtain ⟨v7, v35, v15, v16, v17, v18, v19, v20, v22, v40, v41, v43,
    _, _, _, _, _, _, _, _, _, _, _, _, hr⟩ := panelBuild_ok_elim hp
  subst hr
  rw [panelRecord_lookup_length] at hL
  rw [panelRecord_lookup_width] at hW
  simp only [Option.some.injEq, PyVal.num.injEq] at hL hW
  subst hL
  subst hW
  have hprod : (v40 / 1000) * (v41 / 1000) < 0 := by
    rcases hsign with ⟨hL0, hW0⟩ | ⟨hL0, hW0⟩
    · exact mul_neg_of_neg_of_pos
        (div_neg_of_neg_of_pos hL0 (by norm_num : (0 : ℚ) < 1000))
        (div_pos hW0 (by norm_num : (0 : ℚ) < 1000))
    · exact mul_neg_of_pos_of_neg
        (div_pos hL0 (by norm_num : (0 : ℚ) < 1000))
        (div_neg_of_neg_of_pos hW0 (by norm_num : (0 : ℚ) < 1000))
  have harea : roundTo 3 ((v40 / 1000) * (v41 / 1000)) ≤ 0 := roundTo_nonpos hprod
  refine ⟨panelRecord_lookup_area _ _ _ _ _ _ _ _ _ _ _ _ _, harea, ?_⟩
  rw [panelRecord_lookup_eff, if_neg (not_lt.mpr harea)]

/-- Witness for C10's amended statement: the panel line with
`Module_Length = -1000`, `Module_Width = 1000` parses successfully,
its area `round((-1000/1000)*(1000/1000), 3) = -1` is nonpositive
(here strictly negative), and its efficiency is `0`. -/
theorem claim10_witness :
    ((panelRecord (splitFields ";;;;;;;;;;;;;;;;;;;;;;;;;;;;;;;;;;;;;;;;-1000;1000")
        0 0 0 0 0 0 0 0 0 (-1000) 1000 0).lookup "Panel_Area_m2" =
      some (.num (roundTo 3 (((-1000 : ℚ) / 1000) * ((1000 : ℚ) / 1000)))) ∧
    roundTo 3 (((-1000 : ℚ) / 1000) * ((1000 : ℚ) / 1000)) ≤ 0 ∧
    (panelRecord (splitFields ";;;;;;;;;;;;;;;;;;;;;;;;;;;;;;;;;;;;;;;;-1000;1000")
        0 0 0 0 0 0 0 0 0 (-1000) 1000 0).lookup "Efficiency_percent" =
      some (.num 0)) ∧
    roundTo 3 (((-1000 : ℚ) / 1000) * ((1000 : ℚ) / 1000)) = -1 :=
  ⟨claim10_negative_dimension ";;;;;;;;;;;;;;;;;;;;;;;;;;;;;;;;;;;;;;;;-1000;1000" _
      (-1000) 1000 (by rfl) (by rfl) (by rfl)
      (Or.inl ⟨by norm_num, by norm_num⟩),
   by norm_num [roundTo, rhe]⟩
